import Mathlib

/-!
Shallow embedding of `src/static/js/script.js` (the `YouTubeDownloader`
browser controller).  The repository file contains two concatenated
revisions of the same script; the definitions below follow the current
(second) revision, which is the one the specification describes (3000 ms
grace delay, `B` suffix in `formatViews`, DOM-based `escapeHtml`,
`stopAudio` hiding the player section).

Modelling conventions:
* DOM state touched by the poller (progress bar, notifications, the
  download button, scheduled timeouts) is an explicit record; `setInterval`
  handles are natural numbers allocated from a counter, and the set of
  intervals currently running is a list.  `clearInterval h` removes `h`
  from that list and is a no-op when `h` is not running, exactly like the
  browser API.
* A poll tick is the body of the `setInterval` callback in
  `monitorProgress`.  Its input is `none` when the `fetch`/JSON parse
  threw (the `catch` branch) and `some r` for a parsed response.  Ticks
  may still run for requests that were in flight when the interval was
  cleared, which is how overlapping responses are modelled.
* JavaScript string truthiness (`progress.error ? ... : ...`) is: a
  missing field and the empty string are falsy, every other string truthy.
* `v.toFixed(1)` / `toFixed(2)` on the quotients appearing here are
  modelled as exact half-up decimal rounding of the rational `num/den`.
* `Date.toLocaleDateString` is locale dependent; it is modelled as the
  plain decimal rendering of the timestamp (no claim depends on it).
-/

namespace Y2M

/-- Single quote character, used when assembling inline `onclick` markup. -/
def sq : String := String.singleton (Char.ofNat 39)

/-- JavaScript string truthiness of an optional string field:
`undefined` and `""` are falsy. -/
def truthy : Option String → Bool
  | none => false
  | some s => !s.isEmpty

/-- String concatenation with a possibly-undefined JS value:
`'prefix' + undefined` prints `"undefined"`. -/
def jsStringOf : Option String → String
  | none => "undefined"
  | some s => s

/-- JavaScript `a || b` on an optional string field. -/
def jsOr (o : Option String) (fallback : String) : String :=
  match o with
  | some s => if s.isEmpty then fallback else s
  | none => fallback

/-! ### URL validator (`isValidYouTubeUrl`, script.js lines 319-326) -/

/-- Characters the JavaScript regex `.` does not match (no `s` flag). -/
def lineTerm (c : Char) : Bool :=
  c == Char.ofNat 10 || c == Char.ofNat 13 ||
    c == Char.ofNat 0x2028 || c == Char.ofNat 0x2029

/-- Drop the literal pattern `p` from the front of `s`, returning the
remainder, or `none` when `p` is not a prefix of `s`. -/
def dropPre : List Char → List Char → Option (List Char)
  | [], s => some s
  | _ :: _, [] => none
  | c :: p, d :: s => if c = d then dropPre p s else none

/-- All remainders of `s` after removing one of the alternative literal
patterns in `ps` (regex alternation / optional groups; an optional group
is an alternation containing `[]`). -/
def stripAny (ps : List (List Char)) (s : List Char) : List (List Char) :=
  ps.filterMap fun p => dropPre p s

/-- Regex 1: `^(https?:\/\/)?(www\.)?(youtube\.com|youtu\.?be)\/.+$`. -/
def matchP1 (s : List Char) : Bool :=
  (stripAny ["http://".data, "https://".data, []] s).any fun s1 =>
    (stripAny ["www.".data, []] s1).any fun s2 =>
      (stripAny ["youtube.com".data, "youtu.be".data, "youtube".data] s2).any fun s3 =>
        match s3 with
        | '/' :: rest => !rest.isEmpty && rest.all fun c => !lineTerm c
        | _ => false

/-- Regex 2: `^https?:\/\/(youtu\.be\/|(www\.)?youtube\.com\/(watch|embed|v)\/)`. -/
def matchP2 (s : List Char) : Bool :=
  (stripAny ["http://".data, "https://".data] s).any fun s1 =>
    "youtu.be/".data.isPrefixOf s1 ||
      ((stripAny ["www.".data, []] s1).any fun s2 =>
        match dropPre "youtube.com/".data s2 with
        | some s3 =>
            "watch/".data.isPrefixOf s3 || "embed/".data.isPrefixOf s3 ||
              "v/".data.isPrefixOf s3
        | none => false)

/-- Regex 3: `^https?:\/\/music\.youtube\.com\/watch\?v=`. -/
def matchP3 (s : List Char) : Bool :=
  "http://music.youtube.com/watch?v=".data.isPrefixOf s ||
    "https://music.youtube.com/watch?v=".data.isPrefixOf s

/-- `isValidYouTubeUrl(url)`: `patterns.some(p => p.test(url))`. -/
def isValidYouTubeUrl (url : String) : Bool :=
  matchP1 url.data || matchP2 url.data || matchP3 url.data

/-! ### Formatting helpers (script.js lines 683-699) -/

/-- `(num/den).toFixed(1)` as exact half-up decimal rounding. -/
def toFixed1 (num den : Nat) : String :=
  let t := (num * 10 + den / 2) / den
  toString (t / 10) ++ "." ++ toString (t % 10)

/-- `(num/den).toFixed(2)` as exact half-up decimal rounding. -/
def toFixed2 (num den : Nat) : String :=
  let t := (num * 100 + den / 2) / den
  toString (t / 100) ++ "." ++
    (if t % 100 < 10 then "0" ++ toString (t % 100) else toString (t % 100))

/-- `formatViews(v)` (current revision, lines 694-699). -/
def formatViews (v : Nat) : String :=
  if v ≥ 1000000000 then toFixed1 v 1000000000 ++ "B"
  else if v ≥ 1000000 then toFixed1 v 1000000 ++ "M"
  else if v ≥ 1000 then toFixed1 v 1000 ++ "K"
  else toString v

/-- `sizes[i]` for `formatFileSize`; out-of-range indexing yields
`undefined` in JS. -/
def sizeSuffix (i : Nat) : String :=
  if i = 0 then "Bytes" else if i = 1 then "KB"
  else if i = 2 then "MB" else if i = 3 then "GB" else "undefined"

/-- `formatFileSize(bytes)`; `Math.floor(Math.log(bytes)/Math.log(1024))`
is the base-1024 floor logarithm. -/
def formatFileSize (bytes : Nat) : String :=
  if bytes = 0 then "0 Bytes"
  else
    let i := Nat.log 1024 bytes
    toFixed2 bytes (1024 ^ i) ++ " " ++ sizeSuffix i

/-- `formatDate(ts)`: `toLocaleDateString` is locale dependent; modelled
as the decimal rendering of the timestamp. -/
def formatDate (ts : Nat) : String := toString ts

/-- `escapeHtml(s)` (current revision): serialization of a DOM text node,
which escapes `&`, `<`, `>` and non-breaking spaces. -/
def escChar (c : Char) : List Char :=
  if c = '&' then "&amp;".data
  else if c = '<' then "&lt;".data
  else if c = '>' then "&gt;".data
  else if c = Char.ofNat 0xA0 then "&nbsp;".data
  else [c]

/-- `escapeHtml` on whole strings. -/
def escapeHtml (s : String) : String := String.mk (s.data.flatMap escChar)

/-! ### Progress poller state (`monitorProgress`, lines 473-525) -/

/-- A notification created by `showNotification` via `showSuccess` /
`showError`. -/
inductive Notif where
  | success (msg : String)
  | error (msg : String)
deriving DecidableEq, Repr

/-- The callback scheduled with `setTimeout(..., 3000)` on a terminal
poll response: hide the progress section and null the stored job id. -/
inductive TimeoutAction where
  | hideProgressAndClearId
deriving DecidableEq, Repr

/-- DOM state the poller touches. -/
structure UIState where
  progressSectionHidden : Bool
  downloadBtnDisabled : Bool
  progressFillPct : Nat
  progressText : String
  progressStatus : String
  notifications : List Notif
  downloadsReloads : Nat
  consoleErrors : Nat
deriving DecidableEq, Repr

/-- Client session state: the two ambient globals (`currentDownloadId`,
`progressInterval`) plus the running timers of the page. -/
structure SessionState where
  currentDownloadId : Option String
  progressIntervalHandle : Option Nat
  activeIntervals : List Nat
  nextIntervalId : Nat
  pendingTimeouts : List (Nat × TimeoutAction)
  ui : UIState
deriving DecidableEq, Repr

/-- Response shape `{finished: bool, progress, error?}`
(`progress.finished !== undefined`). -/
structure FinishedResp where
  finished : Bool
  progress : Option Nat
  error : Option String
deriving DecidableEq, Repr

/-- Response shape `{status, progress, error?}`. -/
structure StatusResp where
  status : String
  progress : Nat
  error : Option String
deriving DecidableEq, Repr

/-- A parsed `/progress/{id}` response, dispatched on the presence of the
`finished` field as in the source. -/
inductive ProgressResp where
  | finishedShape (r : FinishedResp)
  | statusShape (r : StatusResp)
deriving DecidableEq, Repr

/-- `updateProgress`: the text written to `progressStatus`. -/
def statusDisplayText (st : String) : String :=
  if st = "downloading" then "Downloading..."
  else if st = "completed" then "Completed!"
  else if st = "error" then "Error occurred"
  else "Processing..."

/-- `updateProgress(progress)` (lines 527-543). -/
def applyUpdateProgress (ui : UIState) (p : Nat) (st : String) : UIState :=
  { ui with
    progressFillPct := p
    progressText := toString p ++ "%"
    progressStatus := statusDisplayText st }

/-- `clearInterval(this.progressInterval)`: stops the stored interval if
it is running; clearing an already-stopped or null handle is a no-op. -/
def clearStoredInterval (s : SessionState) : SessionState :=
  match s.progressIntervalHandle with
  | some h => { s with activeIntervals := s.activeIntervals.erase h }
  | none => s

/-- The terminal block of the poll callback: `clearInterval`, success or
failure notification (plus a downloads refresh on success), re-enable the
download button, and schedule the 3000 ms hide-and-clear timeout. -/
def applyTerminal (s : SessionState) (isErr : Bool) (err : Option String) :
    SessionState :=
  let s1 := clearStoredInterval s
  let ui1 :=
    if isErr then
      { s1.ui with
        notifications :=
          s1.ui.notifications ++ [Notif.error ("Download failed: " ++ jsStringOf err)] }
    else
      { s1.ui with
        notifications := s1.ui.notifications ++ [Notif.success "Download completed!"]
        downloadsReloads := s1.ui.downloadsReloads + 1 }
  { s1 with
    ui := { ui1 with downloadBtnDisabled := false }
    pendingTimeouts :=
      s1.pendingTimeouts ++ [(3000, TimeoutAction.hideProgressAndClearId)] }

/-- One execution of the `monitorProgress` interval callback body
(lines 475-524).  `none` is the `catch` branch (failed fetch or JSON
parse), which only logs to the console. -/
def pollTick (s : SessionState) (resp : Option ProgressResp) : SessionState :=
  match resp with
  | none =>
      { s with ui := { s.ui with consoleErrors := s.ui.consoleErrors + 1 } }
  | some (ProgressResp.finishedShape r) =>
      let st :=
        if r.finished then (if truthy r.error then "error" else "completed")
        else "downloading"
      let s1 := { s with ui := applyUpdateProgress s.ui (r.progress.getD 0) st }
      if r.finished then applyTerminal s1 (truthy r.error) r.error else s1
  | some (ProgressResp.statusShape r) =>
      let s1 := { s with ui := applyUpdateProgress s.ui r.progress r.status }
      if r.status = "completed" || r.status = "error" then
        (if r.status = "completed" then applyTerminal s1 false r.error
         else applyTerminal s1 true r.error)
      else s1

/-- The normalized record the `finished`-shape branch passes to
`updateProgress` (lines 481-485). -/
def normalizeFinished (r : FinishedResp) : StatusResp :=
  { status :=
      if r.finished then (if truthy r.error then "error" else "completed")
      else "downloading"
    progress := r.progress.getD 0
    error := r.error }

/-- Whether a response makes the callback take its terminal branch. -/
def isTerminalResp : ProgressResp → Bool
  | ProgressResp.finishedShape r => r.finished
  | ProgressResp.statusShape r => r.status = "completed" || r.status = "error"

/-- `monitorProgress()` entry (lines 473-475): show the progress section
and start a fresh interval, overwriting the stored handle. -/
def monitorProgress (s : SessionState) : SessionState :=
  { s with
    ui := { s.ui with progressSectionHidden := false }
    activeIntervals := s.activeIntervals ++ [s.nextIntervalId]
    progressIntervalHandle := some s.nextIntervalId
    nextIntervalId := s.nextIntervalId + 1 }

/-- The success path of `startDownload()` (lines 398, 409-412): disable
the button, store the job id, start the poller, show the start toast. -/
def startDownloadSuccess (did : String) (s : SessionState) : SessionState :=
  let s1 := { s with ui := { s.ui with downloadBtnDisabled := true } }
  let s2 := { s1 with currentDownloadId := some did }
  let s3 := monitorProgress s2
  { s3 with
    ui := { s3.ui with
      notifications := s3.ui.notifications ++ [Notif.success "Download started successfully!"] } }

/-- Run a fired `setTimeout` callback. -/
def runTimeout (a : TimeoutAction) (s : SessionState) : SessionState :=
  match a with
  | TimeoutAction.hideProgressAndClearId =>
      { s with
        currentDownloadId := none
        ui := { s.ui with progressSectionHidden := true } }

/-- Page-load state: no job, no interval, progress section hidden. -/
def initUI : UIState :=
  { progressSectionHidden := true
    downloadBtnDisabled := false
    progressFillPct := 0
    progressText := ""
    progressStatus := ""
    notifications := []
    downloadsReloads := 0
    consoleErrors := 0 }

/-- Initial session state (constructor, lines 281-285). -/
def initState : SessionState :=
  { currentDownloadId := none
    progressIntervalHandle := none
    activeIntervals := []
    nextIntervalId := 0
    pendingTimeouts := []
    ui := initUI }

/-- Events that drive the poller state between renders: a successful
download submission, one poll-callback execution (possibly for a request
that was already in flight), or a scheduled timeout firing. -/
inductive PollStep : SessionState → SessionState → Prop where
  | start (s : SessionState) (did : String) :
      PollStep s (startDownloadSuccess did s)
  | tick (s : SessionState) (r : Option ProgressResp) :
      PollStep s (pollTick s r)
  | timer (s : SessionState) (d : Nat) (a : TimeoutAction)
      (h : (d, a) ∈ s.pendingTimeouts) :
      PollStep s (runTimeout a { s with pendingTimeouts := s.pendingTimeouts.erase (d, a) })

/-- States of the client session reachable from page load. -/
inductive Reachable : SessionState → Prop where
  | init : Reachable initState
  | step {s s' : SessionState} : Reachable s → PollStep s s' → Reachable s'

/-! ### Audio player and delete action (lines 606-680) -/

/-- The `<audio>` element plus its section. -/
structure AudioPlayerState where
  src : String
  paused : Bool
  currentTime : Nat
  sectionHidden : Bool
  nowPlayingTitle : String
deriving DecidableEq, Repr

/-- Library-page state touched by play/delete handlers. -/
structure LibraryState where
  audio : AudioPlayerState
  notifications : List Notif
  downloadsReloads : Nat
deriving DecidableEq, Repr

/-- `String.prototype.includes`: substring test. -/
def containsSub : List Char → List Char → Bool
  | n, [] => n.isEmpty
  | n, c :: t => n.isPrefixOf (c :: t) || containsSub n t

/-- `a.includes(b)` on strings. -/
def jsIncludes (s sub : String) : Bool := containsSub sub.data s.data

/-- `playAudio(filename, title)` (lines 606-623): load the stream, show
the section, start playback, toast. -/
def playAudioLib (s : LibraryState) (filename title : String) : LibraryState :=
  { s with
    audio :=
      { src := "/play-audio/" ++ filename
        paused := false
        currentTime := 0
        sectionHidden := false
        nowPlayingTitle := title }
    notifications := s.notifications ++ [Notif.success ("Now playing: " ++ title)] }

/-- `stopAudio()` (current revision, lines 625-636): pause, rewind, hide
the player section. -/
def stopAudio (a : AudioPlayerState) : AudioPlayerState :=
  { a with paused := true, currentTime := 0, sectionHidden := true }

/-- The `data.success` branch of `deleteFile(filename)` (lines 667-673):
toast, refresh the list, and stop the player iff the current `src`
contains the deleted filename as a substring. -/
def deleteFileSuccess (s : LibraryState) (filename : String) : LibraryState :=
  let s1 := { s with
    notifications := s.notifications ++ [Notif.success "File deleted successfully!"]
    downloadsReloads := s.downloadsReloads + 1 }
  if jsIncludes s1.audio.src filename then { s1 with audio := stopAudio s1.audio }
  else s1

/-- Library page before anything plays. -/
def initLibrary : LibraryState :=
  { audio :=
      { src := "", paused := true, currentTime := 0, sectionHidden := true
        nowPlayingTitle := "" }
    notifications := []
    downloadsReloads := 0 }

/-! ### Downloads list rendering (`displayDownloads`, lines 573-604) -/

/-- One element of `data.downloads`. -/
structure DownloadEntry where
  filename : String
  name : String
  size : Nat
  size_formatted : Option String
  modified : Nat
  modified_formatted : Option String
deriving DecidableEq, Repr

/-- A sample library entry used to exercise the renderer. -/
def sampleEntry : DownloadEntry :=
  { filename := "song.mp3"
    name := "My <Song>"
    size := 3000000
    size_formatted := some "3 MB"
    modified := 1700000000
    modified_formatted := some "today" }

/-- The template literal for one `download-item`, chunked (with explicit
right-nested grouping, which does not change the string) so that the
escaped display name and the three inline `onclick` attributes are
visible factors of the concatenation. -/
def renderDownloadItem (d : DownloadEntry) : String :=
  "\n            <div class=\"download-item\">\n                <div class=\"download-info\">\n                    " ++
  (("<h4>" ++ escapeHtml d.name ++ "</h4>") ++
  (("\n                    <div class=\"download-meta\">\n                        <span><i class=\"fas fa-hdd\"></i> " ++
    jsOr d.size_formatted (formatFileSize d.size) ++
    "</span>\n                        <span><i class=\"fas fa-calendar\"></i> " ++
    jsOr d.modified_formatted (formatDate d.modified) ++
    "</span>\n                    </div>\n                </div>\n                <div class=\"download-actions\">\n                    <button class=\"action-btn play-btn\" ") ++
  (("onclick=\"playFile(" ++ sq ++ d.filename ++ sq ++ ", " ++ sq ++
    escapeHtml d.name ++ sq ++ ")\"") ++
  ((">\n                        <i class=\"fas fa-play\"></i> Play\n                    </button>\n                    <button class=\"action-btn download-btn\" ") ++
  (("onclick=\"downloadFile(" ++ sq ++ d.filename ++ sq ++ ")\"") ++
  ((">\n                        <i class=\"fas fa-download\"></i> Download\n                    </button>\n                    <button class=\"action-btn delete-btn\" ") ++
  (("onclick=\"deleteFile(" ++ sq ++ d.filename ++ sq ++ ")\"") ++
  ">\n                        <i class=\"fas fa-trash\"></i> Delete\n                    </button>\n                </div>\n            </div>\n        ")))))))

/-- `Array.prototype.join('')`. -/
def joinAll : List String → String
  | [] => ""
  | s :: rest => s ++ joinAll rest

/-- `displayDownloads(downloads)`: the HTML written to
`downloadsList.innerHTML`. -/
def displayDownloads (downloads : List DownloadEntry) : String :=
  if downloads.isEmpty then
    "<div class=\"empty-state\"><i class=\"fas fa-music\"></i><p>No downloads yet.</p></div>"
  else
    joinAll (downloads.map renderDownloadItem)

/-! ## Helper lemmas -/

theorem dropPre_append (p r : List Char) : dropPre p (p ++ r) = some r := by
  induction p with
  | nil => rfl
  | cons c p ih => simp [dropPre, ih]

theorem dropPre_some {p : List Char} :
    ∀ {s r : List Char}, dropPre p s = some r → s = p ++ r := by
  induction p with
  | nil =>
    intro s r h
    simp [dropPre] at h
    simp [h]
  | cons c p ih =>
    intro s r h
    cases s with
    | nil => simp [dropPre] at h
    | cons d s =>
      rw [dropPre] at h
      by_cases hc : c = d
      · rw [if_pos hc] at h
        subst hc
        have := ih h
        simp [this]
      · rw [if_neg hc] at h
        cases h

theorem isPrefixOf_append_self (p t : List Char) : p.isPrefixOf (p ++ t) = true :=
  List.isPrefixOf_iff_prefix.mpr ⟨t, rfl⟩

theorem mem_stripAny {ps : List (List Char)} {s x : List Char}
    (h : x ∈ stripAny ps s) : ∃ p ∈ ps, s = p ++ x := by
  rcases List.mem_filterMap.mp h with ⟨p, hp, hd⟩
  exact ⟨p, hp, dropPre_some hd⟩

theorem stripAny_mem {ps : List (List Char)} {s p r : List Char}
    (hp : p ∈ ps) (hs : s = p ++ r) : r ∈ stripAny ps s :=
  List.mem_filterMap.mpr ⟨p, hp, by rw [hs]; exact dropPre_append p r⟩

theorem infix_of_decomp {n w : List Char} (pre post : List Char)
    (h : w = pre ++ (n ++ post)) : n <:+: w :=
  ⟨pre, post, by rw [h, List.append_assoc]⟩

theorem containsSub_nil_left (h : List Char) : containsSub [] h = true := by
  cases h <;> simp [containsSub, List.isPrefixOf]

theorem containsSub_append_self (n t : List Char) : containsSub n (n ++ t) = true := by
  cases n with
  | nil => simpa using containsSub_nil_left t
  | cons c n' =>
    have hp := isPrefixOf_append_self (c :: n') t
    rw [List.cons_append] at hp
    simp [containsSub, hp]

theorem containsSub_of_infix {n h : List Char} (hi : n <:+: h) :
    containsSub n h = true := by
  obtain ⟨s, t, rfl⟩ := hi
  induction s with
  | nil => simpa using containsSub_append_self n t
  | cons c s ih => simp [containsSub, List.cons_append] at ih ⊢; simp [ih]

theorem clearStoredInterval_ui (s : SessionState) : (clearStoredInterval s).ui = s.ui := by
  unfold clearStoredInterval
  cases s.progressIntervalHandle <;> rfl

/-- All the fields of `applyTerminal` that the poller claims talk about. -/
theorem applyTerminal_fields (s : SessionState) (isErr : Bool) (err : Option String) :
    (applyTerminal s isErr err).activeIntervals =
      (match s.progressIntervalHandle with
       | some h => s.activeIntervals.erase h
       | none => s.activeIntervals) ∧
    (applyTerminal s isErr err).ui.notifications =
      s.ui.notifications ++
        [if isErr then Notif.error ("Download failed: " ++ jsStringOf err)
         else Notif.success "Download completed!"] ∧
    (applyTerminal s isErr err).ui.downloadBtnDisabled = false ∧
    (applyTerminal s isErr err).pendingTimeouts =
      s.pendingTimeouts ++ [(3000, TimeoutAction.hideProgressAndClearId)] ∧
    (applyTerminal s isErr err).progressIntervalHandle = s.progressIntervalHandle ∧
    (applyTerminal s isErr err).ui.downloadsReloads =
      s.ui.downloadsReloads + (if isErr then 0 else 1) := by
  unfold applyTerminal clearStoredInterval
  cases hh : s.progressIntervalHandle <;> cases isErr <;> simp [hh]

/-- Reduction of the tick on a `finished:true` response. -/
theorem pollTick_finished_true (s : SessionState) (p : Option Nat) (er : Option String) :
    pollTick s (some (ProgressResp.finishedShape
        { finished := true, progress := p, error := er })) =
      applyTerminal
        { s with ui := (applyUpdateProgress s.ui (p.getD 0)
            (if truthy er then "error" else "completed")) }
        (truthy er) er := rfl

/-- Reduction of the tick on a `status:"completed"` response. -/
theorem pollTick_status_completed (s : SessionState) (p : Nat) (er : Option String) :
    pollTick s (some (ProgressResp.statusShape
        { status := "completed", progress := p, error := er })) =
      applyTerminal { s with ui := applyUpdateProgress s.ui p "completed" } false er := rfl

/-- Reduction of the tick on a `status:"error"` response. -/
theorem pollTick_status_error (s : SessionState) (p : Nat) (er : Option String) :
    pollTick s (some (ProgressResp.statusShape
        { status := "error", progress := p, error := er })) =
      applyTerminal { s with ui := applyUpdateProgress s.ui p "error" } true er := rfl

/-- Core behaviour of a poll tick on a terminal response, shared by the
terminal-state claims. -/
theorem pollTick_terminal_core (s : SessionState) (r : ProgressResp)
    (hterm : isTerminalResp r = true) :
    (pollTick s (some r)).activeIntervals =
      (match s.progressIntervalHandle with
       | some h => s.activeIntervals.erase h
       | none => s.activeIntervals) ∧
    ((∃ m, (pollTick s (some r)).ui.notifications = s.ui.notifications ++ [Notif.success m]) ∨
      (∃ m, (pollTick s (some r)).ui.notifications = s.ui.notifications ++ [Notif.error m])) ∧
    (pollTick s (some r)).ui.downloadBtnDisabled = false ∧
    (pollTick s (some r)).pendingTimeouts =
      s.pendingTimeouts ++ [(3000, TimeoutAction.hideProgressAndClearId)] := by
  cases r with
  | finishedShape fr =>
    obtain ⟨f, p, er⟩ := fr
    have hf : f = true := by simpa [isTerminalResp] using hterm
    subst hf
    rw [pollTick_finished_true]
    cases he : truthy er with
    | true =>
      simp only [he, if_true, ite_true]
      obtain ⟨h1, h2, h3, h4, _, _⟩ := applyTerminal_fields
        { s with ui := applyUpdateProgress s.ui (p.getD 0) "error" } true er
      exact ⟨h1, Or.inr ⟨_, by simpa using h2⟩, h3, h4⟩
    | false =>
      simp only [he, if_false, ite_false, Bool.false_eq_true]
      obtain ⟨h1, h2, h3, h4, _, _⟩ := applyTerminal_fields
        { s with ui := applyUpdateProgress s.ui (p.getD 0) "completed" } false er
      exact ⟨h1, Or.inl ⟨_, by simpa using h2⟩, h3, h4⟩
  | statusShape sr =>
    obtain ⟨st, p, er⟩ := sr
    have hor : st = "completed" ∨ st = "error" := by
      simpa [isTerminalResp, Bool.or_eq_true, decide_eq_true_iff] using hterm
    rcases hor with rfl | rfl
    · rw [pollTick_status_completed]
      obtain ⟨h1, h2, h3, h4, _, _⟩ := applyTerminal_fields
        { s with ui := applyUpdateProgress s.ui p "completed" } false er
      exact ⟨h1, Or.inl ⟨_, by simpa using h2⟩, h3, h4⟩
    · rw [pollTick_status_error]
      obtain ⟨h1, h2, h3, h4, _, _⟩ := applyTerminal_fields
        { s with ui := applyUpdateProgress s.ui p "error" } true er
      exact ⟨h1, Or.inr ⟨_, by simpa using h2⟩, h3, h4⟩

/-! ## Claims -/

/-- Claim C8: the view-count formatter maps 999 to `"999"`, 1500 to
`"1.5K"`, 2300000 to `"2.3M"` and 4000000000 to `"4.0B"`. -/
theorem formatViews_examples :
    formatViews 999 = "999" ∧ formatViews 1500 = "1.5K" ∧
      formatViews 2300000 = "2.3M" ∧ formatViews 4000000000 = "4.0B" :=
  ⟨by decide, by decide, by decide, by decide⟩

/-- Claim C6: a failed poll request (the `catch` branch of a tick) is
logged and otherwise ignored: the interval keeps running, the stored job
id, notifications, scheduled timeouts, button and progress UI are all
unchanged; only the console error count grows. -/
theorem pollTick_failure_only_logs (s : SessionState) :
    (pollTick s none).activeIntervals = s.activeIntervals ∧
    (pollTick s none).progressIntervalHandle = s.progressIntervalHandle ∧
    (pollTick s none).currentDownloadId = s.currentDownloadId ∧
    (pollTick s none).pendingTimeouts = s.pendingTimeouts ∧
    (pollTick s none).ui.notifications = s.ui.notifications ∧
    (pollTick s none).ui.downloadBtnDisabled = s.ui.downloadBtnDisabled ∧
    (pollTick s none).ui.progressSectionHidden = s.ui.progressSectionHidden ∧
    (pollTick s none).ui.progressStatus = s.ui.progressStatus ∧
    (pollTick s none).ui.consoleErrors = s.ui.consoleErrors + 1 :=
  ⟨rfl, rfl, rfl, rfl, rfl, rfl, rfl, rfl, rfl⟩

/-- Claim C4: the poller accepts both response shapes, and a
`finished`-boolean response produces exactly the same state transition as
the `status`-enum response it is normalized to (the normalization being
the record the source itself builds at the top of the `finished` branch);
both shapes therefore drive the same three-state contract. -/
theorem pollTick_finished_eq_normalized_status (s : SessionState) (r : FinishedResp) :
    pollTick s (some (ProgressResp.finishedShape r)) =
      pollTick s (some (ProgressResp.statusShape (normalizeFinished r))) := by
  obtain ⟨f, p, er⟩ := r
  cases f with
  | true =>
    cases he : truthy er with
    | true => simp [pollTick, normalizeFinished, he]
    | false => simp [pollTick, normalizeFinished, he]
  | false => simp [pollTick, normalizeFinished]

/-- Claim C3: a `{finished:true, error:"x"}` response (non-empty error)
reaches the error terminal state: it shows the failure toast and the
`Error occurred` status, and never the completed one (no completion toast,
no downloads refresh). -/
theorem finished_error_reaches_error_state (s : SessionState) (p : Option Nat)
    (e : String) (he : e ≠ "") :
    (pollTick s (some (ProgressResp.finishedShape
        { finished := true, progress := p, error := some e }))).ui.notifications =
      s.ui.notifications ++ [Notif.error ("Download failed: " ++ e)] ∧
    (pollTick s (some (ProgressResp.finishedShape
        { finished := true, progress := p, error := some e }))).ui.progressStatus =
      "Error occurred" ∧
    (pollTick s (some (ProgressResp.finishedShape
        { finished := true, progress := p, error := some e }))).ui.downloadsReloads =
      s.ui.downloadsReloads := by
  have hie : e.isEmpty = false := by
    cases hb : e.isEmpty with
    | false => rfl
    | true => exact absurd ((String.isEmpty_iff e).mp hb) he
  have ht : truthy (some e) = true := by simp [truthy, hie]
  rw [pollTick_finished_true]
  obtain ⟨_, h2, _, _, _, h6⟩ := applyTerminal_fields
    { s with ui := (applyUpdateProgress s.ui (p.getD 0)
        (if truthy (some e) then "error" else "completed")) }
    (truthy (some e)) (some e)
  simp only [ht, if_true, ite_true] at h2 h6 ⊢
  refine ⟨by simpa [jsStringOf] using h2, ?_, by simpa using h6⟩
  have : (applyTerminal
      { s with ui := (applyUpdateProgress s.ui (p.getD 0) "error") }
      true (some e)).ui.progressStatus =
      (applyUpdateProgress s.ui (p.getD 0) "error").progressStatus := by
    simp [applyTerminal, clearStoredInterval_ui]
  rw [this]
  simp [applyUpdateProgress, statusDisplayText]

/-- Claim C3 witness. -/
theorem finished_error_reaches_error_state_witness :
    ("x" : String) ≠ "" ∧
    ((pollTick initState (some (ProgressResp.finishedShape
        { finished := true, progress := some 10, error := some "x" }))).ui.notifications =
      initState.ui.notifications ++ [Notif.error ("Download failed: " ++ "x")] ∧
    (pollTick initState (some (ProgressResp.finishedShape
        { finished := true, progress := some 10, error := some "x" }))).ui.progressStatus =
      "Error occurred" ∧
    (pollTick initState (some (ProgressResp.finishedShape
        { finished := true, progress := some 10, error := some "x" }))).ui.downloadsReloads =
      initState.ui.downloadsReloads) :=
  ⟨by decide, finished_error_reaches_error_state initState (some 10) "x" (by decide)⟩

/-- Claim C1: on a terminal poll response, the tick stops the stored
polling interval, appends one completion or failure toast, re-enables the
download button, and schedules a 3000 ms timeout whose action hides the
progress section and nulls the stored job id. -/
theorem pollTick_terminal_behavior (s : SessionState) (r : ProgressResp) (h : Nat)
    (hterm : isTerminalResp r = true)
    (hh : s.progressIntervalHandle = some h) :
    (pollTick s (some r)).activeIntervals = s.activeIntervals.erase h ∧
    ((∃ m, (pollTick s (some r)).ui.notifications = s.ui.notifications ++ [Notif.success m]) ∨
      (∃ m, (pollTick s (some r)).ui.notifications = s.ui.notifications ++ [Notif.error m])) ∧
    (pollTick s (some r)).ui.downloadBtnDisabled = false ∧
    (pollTick s (some r)).pendingTimeouts =
      s.pendingTimeouts ++ [(3000, TimeoutAction.hideProgressAndClearId)] ∧
    (runTimeout TimeoutAction.hideProgressAndClearId
      (pollTick s (some r))).ui.progressSectionHidden = true ∧
    (runTimeout TimeoutAction.hideProgressAndClearId
      (pollTick s (some r))).currentDownloadId = none := by
  obtain ⟨h1, h2, h3, h4⟩ := pollTick_terminal_core s r hterm
  rw [hh] at h1
  exact ⟨h1, h2, h3, h4, rfl, rfl⟩

/-- Claim C1 witness. -/
theorem pollTick_terminal_behavior_witness :
    isTerminalResp (ProgressResp.statusShape
      { status := "error", progress := 0, error := some "boom" }) = true ∧
    (startDownloadSuccess "job1" initState).progressIntervalHandle = some 0 ∧
    ((pollTick (startDownloadSuccess "job1" initState)
        (some (ProgressResp.statusShape
          { status := "error", progress := 0, error := some "boom" }))).activeIntervals =
      (startDownloadSuccess "job1" initState).activeIntervals.erase 0 ∧
    ((∃ m, (pollTick (startDownloadSuccess "job1" initState)
        (some (ProgressResp.statusShape
          { status := "error", progress := 0, error := some "boom" }))).ui.notifications =
      (startDownloadSuccess "job1" initState).ui.notifications ++ [Notif.success m]) ∨
      (∃ m, (pollTick (startDownloadSuccess "job1" initState)
        (some (ProgressResp.statusShape
          { status := "error", progress := 0, error := some "boom" }))).ui.notifications =
      (startDownloadSuccess "job1" initState).ui.notifications ++ [Notif.error m])) ∧
    (pollTick (startDownloadSuccess "job1" initState)
        (some (ProgressResp.statusShape
          { status := "error", progress := 0, error := some "boom" }))).ui.downloadBtnDisabled =
      false ∧
    (pollTick (startDownloadSuccess "job1" initState)
        (some (ProgressResp.statusShape
          { status := "error", progress := 0, error := some "boom" }))).pendingTimeouts =
      (startDownloadSuccess "job1" initState).pendingTimeouts ++
        [(3000, TimeoutAction.hideProgressAndClearId)] ∧
    (runTimeout TimeoutAction.hideProgressAndClearId
      (pollTick (startDownloadSuccess "job1" initState)
        (some (ProgressResp.statusShape
          { status := "error", progress := 0, error := some "boom" })))).ui.progressSectionHidden =
      true ∧
    (runTimeout TimeoutAction.hideProgressAndClearId
      (pollTick (startDownloadSuccess "job1" initState)
        (some (ProgressResp.statusShape
          { status := "error", progress := 0, error := some "boom" })))).currentDownloadId =
      none) :=
  ⟨by decide, rfl,
    pollTick_terminal_behavior (startDownloadSuccess "job1" initState)
      (ProgressResp.statusShape { status := "error", progress := 0, error := some "boom" })
      0 (by decide) rfl⟩

/-- Claim C2 (counterexample): the invariant "at most one active polling
interval at any reachable state" fails: submitting a second download
while the first poller runs reaches a state with two live intervals,
because `monitorProgress` overwrites `progressInterval` without clearing
the previous one. -/
theorem atMostOneActiveInterval_fails :
    ¬ (∀ s : SessionState, Reachable s → s.activeIntervals.length ≤ 1) := by
  intro hcl
  have h2 : Reachable (startDownloadSuccess "b" (startDownloadSuccess "a" initState)) :=
    Reachable.step (Reachable.step Reachable.init (PollStep.start initState "a"))
      (PollStep.start (startDownloadSuccess "a" initState) "b")
  have hlen : (startDownloadSuccess "b"
      (startDownloadSuccess "a" initState)).activeIntervals.length = 2 := by decide
  have := hcl _ h2
  rw [hlen] at this
  omega

/-- Claim C2 (amended): the client tracks only one interval handle, and
starting a new download while a previous poller is active overwrites that
handle without clearing the previous interval, so the old interval keeps
running untracked and two intervals are live at once. -/
theorem startDownload_orphans_active_interval (s : SessionState) (h : Nat) (did : String)
    (hmem : h ∈ s.activeIntervals) (hfresh : h ≠ s.nextIntervalId)
    (_hh : s.progressIntervalHandle = some h) :
    h ∈ (startDownloadSuccess did s).activeIntervals ∧
    (startDownloadSuccess did s).progressIntervalHandle = some s.nextIntervalId ∧
    (startDownloadSuccess did s).progressIntervalHandle ≠ some h ∧
    2 ≤ (startDownloadSuccess did s).activeIntervals.length := by
  have hact : (startDownloadSuccess did s).activeIntervals =
      s.activeIntervals ++ [s.nextIntervalId] := rfl
  have hph : (startDownloadSuccess did s).progressIntervalHandle =
      some s.nextIntervalId := rfl
  refine ⟨?_, hph, ?_, ?_⟩
  · rw [hact]
    exact List.mem_append_left _ hmem
  · rw [hph]
    intro hcon
    injection hcon with hcon
    exact hfresh hcon.symm
  · rw [hact, List.length_append]
    have hpos : 0 < s.activeIntervals.length := List.length_pos.mpr (List.ne_nil_of_mem hmem)
    simp only [List.length_singleton]
    omega

/-- Claim C2 amended witness. -/
theorem startDownload_orphans_active_interval_witness :
    0 ∈ (startDownloadSuccess "a" initState).activeIntervals ∧
    (0 : Nat) ≠ (startDownloadSuccess "a" initState).nextIntervalId ∧
    (startDownloadSuccess "a" initState).progressIntervalHandle = some 0 ∧
    (0 ∈ (startDownloadSuccess "b" (startDownloadSuccess "a" initState)).activeIntervals ∧
    (startDownloadSuccess "b" (startDownloadSuccess "a" initState)).progressIntervalHandle =
      some (startDownloadSuccess "a" initState).nextIntervalId ∧
    (startDownloadSuccess "b" (startDownloadSuccess "a" initState)).progressIntervalHandle ≠
      some 0 ∧
    2 ≤ (startDownloadSuccess "b" (startDownloadSuccess "a" initState)).activeIntervals.length) :=
  ⟨by decide, by decide, rfl,
    startDownload_orphans_active_interval (startDownloadSuccess "a" initState) 0 "b"
      (by decide) (by decide) rfl⟩

/-- Claim C5 (counterexample): the terminal UI actions are not guarded
against overlapping in-flight responses: processing the same terminal
response twice (a second request already in flight when the interval was
cleared) shows the completion toast twice and schedules the grace-delay
timeout twice. -/
theorem terminal_ui_actions_repeat_cex :
    (pollTick (pollTick (startDownloadSuccess "dup" initState)
        (some (ProgressResp.statusShape
          { status := "completed", progress := 100, error := none })))
      (some (ProgressResp.statusShape
        { status := "completed", progress := 100, error := none }))).ui.notifications =
      [Notif.success "Download started successfully!", Notif.success "Download completed!",
        Notif.success "Download completed!"] ∧
    (pollTick (pollTick (startDownloadSuccess "dup" initState)
        (some (ProgressResp.statusShape
          { status := "completed", progress := 100, error := none })))
      (some (ProgressResp.statusShape
        { status := "completed", progress := 100, error := none }))).pendingTimeouts.length = 2 :=
  ⟨by decide, by decide⟩

/-- Claim C5 (amended): stopping the interval is idempotent — clearing an
already-stopped handle changes nothing — but the terminal UI actions are
performed once per terminal response processed, so a second in-flight
terminal response repeats the toast and the timeout scheduling. -/
theorem interval_stop_idempotent_but_ui_repeats (s : SessionState) (r : ProgressResp)
    (h : Nat) (hterm : isTerminalResp r = true)
    (hh : s.progressIntervalHandle = some h)
    (hstopped : h ∉ s.activeIntervals) :
    (pollTick s (some r)).activeIntervals = s.activeIntervals ∧
    (pollTick s (some r)).ui.notifications.length = s.ui.notifications.length + 1 ∧
    (pollTick s (some r)).pendingTimeouts.length = s.pendingTimeouts.length + 1 := by
  obtain ⟨h1, h2, h3, h4⟩ := pollTick_terminal_core s r hterm
  rw [hh] at h1
  refine ⟨?_, ?_, ?_⟩
  · rw [h1]
    exact List.erase_of_not_mem hstopped
  · rcases h2 with ⟨m, hm⟩ | ⟨m, hm⟩ <;> rw [hm] <;> simp
  · rw [h4]
    simp

/-- Claim C5 amended witness. -/
theorem interval_stop_idempotent_but_ui_repeats_witness :
    isTerminalResp (ProgressResp.statusShape
      { status := "completed", progress := 100, error := none }) = true ∧
    (pollTick (startDownloadSuccess "dup2" initState)
        (some (ProgressResp.statusShape
          { status := "completed", progress := 100, error := none }))).progressIntervalHandle =
      some 0 ∧
    0 ∉ (pollTick (startDownloadSuccess "dup2" initState)
        (some (ProgressResp.statusShape
          { status := "completed", progress := 100, error := none }))).activeIntervals ∧
    ((pollTick (pollTick (startDownloadSuccess "dup2" initState)
        (some (ProgressResp.statusShape
          { status := "completed", progress := 100, error := none })))
      (some (ProgressResp.statusShape
        { status := "completed", progress := 100, error := none }))).activeIntervals =
      (pollTick (startDownloadSuccess "dup2" initState)
        (some (ProgressResp.statusShape
          { status := "completed", progress := 100, error := none }))).activeIntervals ∧
    (pollTick (pollTick (startDownloadSuccess "dup2" initState)
        (some (ProgressResp.statusShape
          { status := "completed", progress := 100, error := none })))
      (some (ProgressResp.statusShape
        { status := "completed", progress := 100, error := none }))).ui.notifications.length =
      (pollTick (startDownloadSuccess "dup2" initState)
        (some (ProgressResp.statusShape
          { status := "completed", progress := 100, error := none }))).ui.notifications.length + 1 ∧
    (pollTick (pollTick (startDownloadSuccess "dup2" initState)
        (some (ProgressResp.statusShape
          { status := "completed", progress := 100, error := none })))
      (some (ProgressResp.statusShape
        { status := "completed", progress := 100, error := none }))).pendingTimeouts.length =
      (pollTick (startDownloadSuccess "dup2" initState)
        (some (ProgressResp.statusShape
          { status := "completed", progress := 100, error := none }))).pendingTimeouts.length + 1) :=
  ⟨by decide, rfl, by decide,
    interval_stop_idempotent_but_ui_repeats
      (pollTick (startDownloadSuccess "dup2" initState)
        (some (ProgressResp.statusShape
          { status := "completed", progress := 100, error := none })))
      (ProgressResp.statusShape { status := "completed", progress := 100, error := none })
      0 (by decide) rfl (by decide)⟩

/-- Every string accepted by regex 1 contains `youtu`. -/
theorem youtu_infix_of_matchP1 {s : List Char} (hm : matchP1 s = true) :
    "youtu".data <:+: s := by
  unfold matchP1 at hm
  rw [List.any_eq_true] at hm
  obtain ⟨s1, hs1, hm⟩ := hm
  rw [List.any_eq_true] at hm
  obtain ⟨s2, hs2, hm⟩ := hm
  rw [List.any_eq_true] at hm
  obtain ⟨s3, hs3, _⟩ := hm
  obtain ⟨p, _, hpe⟩ := mem_stripAny hs1
  obtain ⟨w, _, hwe⟩ := mem_stripAny hs2
  obtain ⟨hst, hhost, hhe⟩ := mem_stripAny hs3
  simp only [List.mem_cons, List.not_mem_nil, or_false] at hhost
  have hyoutu : ∃ rest, hst = "youtu".data ++ rest := by
    rcases hhost with h | h | h
    · exact ⟨"be.com".data, by rw [h]; decide⟩
    · exact ⟨".be".data, by rw [h]; decide⟩
    · exact ⟨"be".data, by rw [h]; decide⟩
  obtain ⟨rest, hrest⟩ := hyoutu
  refine infix_of_decomp (p ++ w) (rest ++ s3) ?_
  rw [hpe, hwe, hhe, hrest]
  simp [List.append_assoc]

/-- Every string accepted by regex 2 contains `youtu`. -/
theorem youtu_infix_of_matchP2 {s : List Char} (hm : matchP2 s = true) :
    "youtu".data <:+: s := by
  unfold matchP2 at hm
  rw [List.any_eq_true] at hm
  obtain ⟨s1, hs1, hm⟩ := hm
  obtain ⟨p, _, hpe⟩ := mem_stripAny hs1
  rw [Bool.or_eq_true] at hm
  rcases hm with hyb | hm
  · obtain ⟨t, ht⟩ := List.isPrefixOf_iff_prefix.mp hyb
    refine infix_of_decomp p (".be/".data ++ t) ?_
    rw [hpe, ← ht, (by decide : "youtu.be/".data = "youtu".data ++ ".be/".data)]
    simp [List.append_assoc]
  · rw [List.any_eq_true] at hm
    obtain ⟨s2, hs2, hm⟩ := hm
    obtain ⟨w, _, hwe⟩ := mem_stripAny hs2
    cases hd : dropPre "youtube.com/".data s2 with
    | none =>
      rw [hd] at hm
      exact absurd hm (by decide)
    | some s3 =>
      have hs2e := dropPre_some hd
      refine infix_of_decomp (p ++ w) ("be.com/".data ++ s3) ?_
      rw [hpe, hwe, hs2e, (by decide : "youtube.com/".data = "youtu".data ++ "be.com/".data)]
      simp [List.append_assoc]

/-- Every string accepted by regex 3 contains `youtu`. -/
theorem youtu_infix_of_matchP3 {s : List Char} (hm : matchP3 s = true) :
    "youtu".data <:+: s := by
  unfold matchP3 at hm
  rw [Bool.or_eq_true] at hm
  rcases hm with h | h
  · obtain ⟨t, ht⟩ := List.isPrefixOf_iff_prefix.mp h
    refine infix_of_decomp "http://music.".data ("be.com/watch?v=".data ++ t) ?_
    rw [← ht, (by decide : "http://music.youtube.com/watch?v=".data =
      "http://music.".data ++ ("youtu".data ++ "be.com/watch?v=".data))]
    simp [List.append_assoc]
  · obtain ⟨t, ht⟩ := List.isPrefixOf_iff_prefix.mp h
    refine infix_of_decomp "https://music.".data ("be.com/watch?v=".data ++ t) ?_
    rw [← ht, (by decide : "https://music.youtube.com/watch?v=".data =
      "https://music.".data ++ ("youtu".data ++ "be.com/watch?v=".data))]
    simp [List.append_assoc]

/-- Claim C7: the URL validator is a boolean predicate that accepts every
string of the four accepted link shapes — canonical watch, shortened
`youtu.be`, embed, and music subdomain, each with an arbitrary
line-terminator-free suffix — and rejects every string unrelated to
YouTube (one in which the substring `youtu`, common to every accepted
domain form, does not occur). -/
theorem isValidYouTubeUrl_spec :
    (∀ v : String, (∀ c ∈ v.data, lineTerm c = false) →
      isValidYouTubeUrl ("https://www.youtube.com/watch?v=" ++ v) = true ∧
      isValidYouTubeUrl ("https://youtu.be/" ++ v) = true ∧
      isValidYouTubeUrl ("https://www.youtube.com/embed/" ++ v) = true ∧
      isValidYouTubeUrl ("https://music.youtube.com/watch?v=" ++ v) = true) ∧
    (∀ u : String, ¬ ("youtu".data <:+: u.data) → isValidYouTubeUrl u = false) := by
  constructor
  · intro v hv
    refine ⟨?_, ?_, ?_, ?_⟩
    · -- canonical shape, accepted by regex 1
      have hdata : ("https://www.youtube.com/watch?v=" ++ v).data =
          "https://".data ++ ("www.".data ++ ("youtube.com".data ++
            ('/' :: ("watch?v=".data ++ v.data)))) := by
        rw [String.data_append,
          (by decide : "https://www.youtube.com/watch?v=".data =
            "https://".data ++ ("www.".data ++ ("youtube.com".data ++ ('/' :: "watch?v=".data))))]
        simp [List.append_assoc]
      have h1 : matchP1 ("https://www.youtube.com/watch?v=" ++ v).data = true := by
        rw [hdata]
        unfold matchP1
        apply List.any_eq_true.mpr
        refine ⟨"www.".data ++ ("youtube.com".data ++ ('/' :: ("watch?v=".data ++ v.data))),
          stripAny_mem (by decide) rfl, ?_⟩
        apply List.any_eq_true.mpr
        refine ⟨"youtube.com".data ++ ('/' :: ("watch?v=".data ++ v.data)),
          stripAny_mem (by decide) rfl, ?_⟩
        apply List.any_eq_true.mpr
        refine ⟨'/' :: ("watch?v=".data ++ v.data), stripAny_mem (by decide) rfl, ?_⟩
        show (!("watch?v=".data ++ v.data).isEmpty &&
          ("watch?v=".data ++ v.data).all fun c => !lineTerm c) = true
        rw [Bool.and_eq_true]
        constructor
        · rw [(by decide : "watch?v=".data = 'w' :: "atch?v=".data), List.cons_append]
          rfl
        · rw [List.all_append, Bool.and_eq_true]
          refine ⟨by decide, ?_⟩
          rw [List.all_eq_true]
          intro c hc
          simp [hv c hc]
      unfold isValidYouTubeUrl
      rw [Bool.or_eq_true, Bool.or_eq_true]
      exact Or.inl (Or.inl h1)
    · -- shortened shape, accepted by regex 2
      have hdata : ("https://youtu.be/" ++ v).data =
          "https://".data ++ ("youtu.be/".data ++ v.data) := by
        rw [String.data_append,
          (by decide : "https://youtu.be/".data = "https://".data ++ "youtu.be/".data)]
        simp [List.append_assoc]
      have h2 : matchP2 ("https://youtu.be/" ++ v).data = true := by
        rw [hdata]
        unfold matchP2
        apply List.any_eq_true.mpr
        refine ⟨"youtu.be/".data ++ v.data, stripAny_mem (by decide) rfl, ?_⟩
        rw [Bool.or_eq_true]
        exact Or.inl (isPrefixOf_append_self _ _)
      unfold isValidYouTubeUrl
      rw [Bool.or_eq_true, Bool.or_eq_true]
      exact Or.inl (Or.inr h2)
    · -- embed shape, accepted by regex 2
      have hdata : ("https://www.youtube.com/embed/" ++ v).data =
          "https://".data ++ ("www.".data ++ ("youtube.com/".data ++ ("embed/".data ++ v.data))) := by
        rw [String.data_append,
          (by decide : "https://www.youtube.com/embed/".data =
            "https://".data ++ ("www.".data ++ ("youtube.com/".data ++ "embed/".data)))]
        simp [List.append_assoc]
      have h2 : matchP2 ("https://www.youtube.com/embed/" ++ v).data = true := by
        rw [hdata]
        unfold matchP2
        apply List.any_eq_true.mpr
        refine ⟨"www.".data ++ ("youtube.com/".data ++ ("embed/".data ++ v.data)),
          stripAny_mem (by decide) rfl, ?_⟩
        rw [Bool.or_eq_true]
        refine Or.inr ?_
        apply List.any_eq_true.mpr
        refine ⟨"youtube.com/".data ++ ("embed/".data ++ v.data),
          stripAny_mem (by decide) rfl, ?_⟩
        rw [dropPre_append]
        rw [Bool.or_eq_true, Bool.or_eq_true]
        exact Or.inl (Or.inr (isPrefixOf_append_self _ _))
      unfold isValidYouTubeUrl
      rw [Bool.or_eq_true, Bool.or_eq_true]
      exact Or.inl (Or.inr h2)
    · -- music shape, accepted by regex 3
      have h3 : matchP3 ("https://music.youtube.com/watch?v=" ++ v).data = true := by
        unfold matchP3
        rw [Bool.or_eq_true]
        refine Or.inr ?_
        rw [String.data_append]
        exact isPrefixOf_append_self _ _
      unfold isValidYouTubeUrl
      rw [Bool.or_eq_true, Bool.or_eq_true]
      exact Or.inr h3
  · intro u hni
    cases hval : isValidYouTubeUrl u with
    | false => rfl
    | true =>
      exfalso
      unfold isValidYouTubeUrl at hval
      rw [Bool.or_eq_true, Bool.or_eq_true] at hval
      rcases hval with (h | h) | h
      · exact hni (youtu_infix_of_matchP1 h)
      · exact hni (youtu_infix_of_matchP2 h)
      · exact hni (youtu_infix_of_matchP3 h)

/-- Claim C7 witness. -/
theorem isValidYouTubeUrl_spec_witness :
    (∀ c ∈ ("dQw4w9WgXcQ" : String).data, lineTerm c = false) ∧
    isValidYouTubeUrl ("https://www.youtube.com/watch?v=" ++ "dQw4w9WgXcQ") = true ∧
    isValidYouTubeUrl ("https://youtu.be/" ++ "dQw4w9WgXcQ") = true ∧
    ¬ ("youtu".data <:+: ("https://example.com/video" : String).data) ∧
    isValidYouTubeUrl "https://example.com/video" = false :=
  ⟨by decide,
    ((isValidYouTubeUrl_spec.1 "dQw4w9WgXcQ" (by decide)).1),
    ((isValidYouTubeUrl_spec.1 "dQw4w9WgXcQ" (by decide)).2.1),
    by decide,
    isValidYouTubeUrl_spec.2 "https://example.com/video" (by decide)⟩

/-- The audio-player effect of a successful delete, as a conditional. -/
theorem deleteFileSuccess_audio (s : LibraryState) (fn : String) :
    (deleteFileSuccess s fn).audio =
      (if jsIncludes s.audio.src fn then stopAudio s.audio else s.audio) := by
  by_cases h : jsIncludes s.audio.src fn = true
  · simp [deleteFileSuccess, h]
  · have h' : jsIncludes s.audio.src fn = false := by
      cases hb : jsIncludes s.audio.src fn with
      | false => rfl
      | true => exact absurd hb h
    simp [deleteFileSuccess, h']

/-- Claim C9 (counterexample): deleting a filename different from the one
loaded in the player can still stop and hide it — the source checks
`audioPlayer.src.includes(filename)`, a substring test, so deleting
`b.mp3` while `ab.mp3` is playing stops playback. -/
theorem deleteFile_other_filename_cex :
    ("b.mp3" : String) ≠ "ab.mp3" ∧
    (playAudioLib initLibrary "ab.mp3" "ab").audio.paused = false ∧
    (playAudioLib initLibrary "ab.mp3" "ab").audio.sectionHidden = false ∧
    (deleteFileSuccess (playAudioLib initLibrary "ab.mp3" "ab") "b.mp3").audio.paused = true ∧
    (deleteFileSuccess (playAudioLib initLibrary "ab.mp3" "ab") "b.mp3").audio.sectionHidden =
      true :=
  ⟨by decide, by decide, by decide, by decide, by decide⟩

/-- Claim C9 (amended): a successful delete of a filename occurring as a
substring of the player's current `src` — in particular of the loaded
filename itself — stops playback and hides the player section, while a
successful delete of a filename not occurring in the `src` leaves the
player untouched. -/
theorem deleteFile_audio_effect (s : LibraryState) (f other : String)
    (hsrc : s.audio.src = "/play-audio/" ++ f)
    (hother : jsIncludes s.audio.src other = false) :
    (deleteFileSuccess s f).audio = stopAudio s.audio ∧
    (deleteFileSuccess s f).audio.paused = true ∧
    (deleteFileSuccess s f).audio.sectionHidden = true ∧
    (deleteFileSuccess s other).audio = s.audio := by
  have hinc : jsIncludes s.audio.src f = true := by
    rw [hsrc]
    unfold jsIncludes
    rw [String.data_append]
    exact containsSub_of_infix (infix_of_decomp "/play-audio/".data [] (by simp))
  have h1 := deleteFileSuccess_audio s f
  simp only [hinc, if_true] at h1
  have h2 := deleteFileSuccess_audio s other
  simp only [hother, Bool.false_eq_true, if_false] at h2
  exact ⟨h1, by rw [h1]; rfl, by rw [h1]; rfl, h2⟩

/-- Claim C9 amended witness. -/
theorem deleteFile_audio_effect_witness :
    (playAudioLib initLibrary "a.mp3" "a").audio.src = "/play-audio/" ++ "a.mp3" ∧
    jsIncludes (playAudioLib initLibrary "a.mp3" "a").audio.src "zz.mp3" = false ∧
    ((deleteFileSuccess (playAudioLib initLibrary "a.mp3" "a") "a.mp3").audio =
      stopAudio (playAudioLib initLibrary "a.mp3" "a").audio ∧
    (deleteFileSuccess (playAudioLib initLibrary "a.mp3" "a") "a.mp3").audio.paused = true ∧
    (deleteFileSuccess (playAudioLib initLibrary "a.mp3" "a") "a.mp3").audio.sectionHidden =
      true ∧
    (deleteFileSuccess (playAudioLib initLibrary "a.mp3" "a") "zz.mp3").audio =
      (playAudioLib initLibrary "a.mp3" "a").audio) :=
  ⟨rfl, by decide,
    deleteFile_audio_effect (playAudioLib initLibrary "a.mp3" "a") "a.mp3" "zz.mp3"
      rfl (by decide)⟩

/-- A member of a list of strings is an infix of their concatenation. -/
theorem infix_joinAll {d : String} : ∀ {ds : List String}, d ∈ ds →
    d.data <:+: (joinAll ds).data := by
  intro ds hd
  induction ds with
  | nil => cases hd
  | cons a l ih =>
    rcases List.mem_cons.mp hd with rfl | hmem
    · exact ⟨[], (joinAll l).data, by simp [joinAll, String.data_append]⟩
    · obtain ⟨x, y, e⟩ := ih hmem
      refine ⟨a.data ++ x, y, ?_⟩
      rw [show joinAll (a :: l) = a ++ joinAll l from rfl, String.data_append, ← e]
      simp [List.append_assoc]

/-- Extending an infix across a string concatenation, from the right part. -/
theorem str_infix_extend_left {f : List Char} {a b : String} (h : f <:+: b.data) :
    f <:+: (a ++ b).data := by
  rw [String.data_append]
  exact h.trans ⟨a.data, [], by simp⟩

/-- Extending an infix across a string concatenation, from the left part. -/
theorem str_infix_extend_right {f : List Char} {a b : String} (h : f <:+: a.data) :
    f <:+: (a ++ b).data := by
  rw [String.data_append]
  exact h.trans ⟨[], b.data, by simp⟩

/-- Claim C10: in the rendered downloads list, every entry's display name
is inserted HTML-escaped (inside the `h4`), while the entry's filename is
interpolated verbatim into the inline `onclick` attributes of the Play,
Download and Delete buttons, so the markup contains the raw filename
string. -/
theorem displayDownloads_markup (ds : List DownloadEntry) (d : DownloadEntry)
    (hd : d ∈ ds) :
    (("<h4>" ++ escapeHtml d.name ++ "</h4>").data <:+: (displayDownloads ds).data) ∧
    (("onclick=\"playFile(" ++ sq ++ d.filename ++ sq ++ ", " ++ sq ++
      escapeHtml d.name ++ sq ++ ")\"").data <:+: (displayDownloads ds).data) ∧
    (("onclick=\"downloadFile(" ++ sq ++ d.filename ++ sq ++ ")\"").data <:+:
      (displayDownloads ds).data) ∧
    (("onclick=\"deleteFile(" ++ sq ++ d.filename ++ sq ++ ")\"").data <:+:
      (displayDownloads ds).data) ∧
    (d.filename.data <:+: (displayDownloads ds).data) := by
  have hne : ds.isEmpty = false := by
    cases ds with
    | nil => cases hd
    | cons a l => rfl
  have hdisp : displayDownloads ds = joinAll (ds.map renderDownloadItem) := by
    simp [displayDownloads, hne]
  have hr : (renderDownloadItem d).data <:+: (displayDownloads ds).data := by
    rw [hdisp]
    exact infix_joinAll (List.mem_map_of_mem renderDownloadItem hd)
  have htrans : ∀ f : List Char, f <:+: (renderDownloadItem d).data →
      f <:+: (displayDownloads ds).data := fun f hf => hf.trans hr
  refine ⟨htrans _ ?_, htrans _ ?_, htrans _ ?_, htrans _ ?_, htrans _ ?_⟩
  all_goals unfold renderDownloadItem
  · exact str_infix_extend_left (str_infix_extend_right (List.infix_refl _))
  · exact str_infix_extend_left (str_infix_extend_left (str_infix_extend_left
      (str_infix_extend_right (List.infix_refl _))))
  · exact str_infix_extend_left (str_infix_extend_left (str_infix_extend_left
      (str_infix_extend_left (str_infix_extend_left
        (str_infix_extend_right (List.infix_refl _))))))
  · exact str_infix_extend_left (str_infix_extend_left (str_infix_extend_left
      (str_infix_extend_left (str_infix_extend_left (str_infix_extend_left
        (str_infix_extend_left (str_infix_extend_right (List.infix_refl _))))))))
  · refine str_infix_extend_left (str_infix_extend_left (str_infix_extend_left
      (str_infix_extend_left (str_infix_extend_left (str_infix_extend_left
        (str_infix_extend_left (str_infix_extend_right ?_)))))))
    exact ⟨("onclick=\"deleteFile(" ++ sq).data, (sq ++ ")\"").data,
      by simp [String.data_append, List.append_assoc]⟩

/-- Claim C10 witness. -/
theorem displayDownloads_markup_witness :
    sampleEntry ∈ [sampleEntry] ∧
    (("<h4>" ++ escapeHtml sampleEntry.name ++ "</h4>").data <:+:
      (displayDownloads [sampleEntry]).data) ∧
    (("onclick=\"deleteFile(" ++ sq ++ sampleEntry.filename ++ sq ++ ")\"").data <:+:
      (displayDownloads [sampleEntry]).data) ∧
    (sampleEntry.filename.data <:+: (displayDownloads [sampleEntry]).data) :=
  ⟨List.mem_singleton.mpr rfl,
    (displayDownloads_markup [sampleEntry] sampleEntry (List.mem_singleton.mpr rfl)).1,
    (displayDownloads_markup [sampleEntry] sampleEntry (List.mem_singleton.mpr rfl)).2.2.2.1,
    (displayDownloads_markup [sampleEntry] sampleEntry (List.mem_singleton.mpr rfl)).2.2.2.2⟩

end Y2M
